import Mathlib

/-!
Verification development for the claude-usage-indicator repository.

The development shallowly embeds the state-reconciliation and fetch-classification
logic of the three Python source files:

- `claude_usage_indicator.py`: `_parse_api_usage` and `fetch_usage` (the reconciler),
- `get_usage.py`: `parse_cookies`, the precondition phase and the outcome
  classification of `get_usage`,
- `update_claude_usage.py`: `update_usage` and the core of `fetch_and_update`.

JSON values are modelled by `JVal` (numbers are integers; floating-point JSON
numbers are outside the scope of the claims).  Python dictionaries coming from
`json.load` are association lists with unique keys in insertion order.
Python `datetime` objects are modelled by the `DT` structure together with
executable models of `datetime.isoformat` and `datetime.fromisoformat`
(restricted to the grammar relevant here; see the comments on `parseDTChars`).
File-system effects are made explicit: the config file is an `Option Dict`
argument and result, and "now" is a string parameter.
-/

/-- JSON value as produced by `json.loads`.  Floating-point numbers are not
modelled (no claim involves them); `num` carries a Python int. -/
inductive JVal where
  | null : JVal
  | bool (b : Bool) : JVal
  | num (n : Int) : JVal
  | str (s : String) : JVal
  | obj (fields : List (String × JVal)) : JVal
deriving Repr

/-- A JSON object / Python dict, as an association list in insertion order. -/
abbrev Dict := List (String × JVal)

/-- Python `d[k]` / `d.get(k)` returning `none` when the key is absent. -/
def dictGet (c : Dict) (k : String) : Option JVal :=
  (c.find? (fun p => p.1 = k)).map (fun p => p.2)

/-- Python `d.get(k, dflt)`. -/
def dictGetD (c : Dict) (k : String) (dflt : JVal) : JVal :=
  (dictGet c k).getD dflt

/-- Python `d.get(k)` with the implicit `None` default. -/
def dictGetN (c : Dict) (k : String) : JVal :=
  dictGetD c k .null

/-- Python `k in d`. -/
def dictHas (c : Dict) (k : String) : Bool :=
  (dictGet c k).isSome

/-- Python `d[k] = v`: replace the value of an existing key in place,
otherwise append the new key at the end (dict insertion order). -/
def dictSet : Dict → String → JVal → Dict
  | [], k, v => [(k, v)]
  | (k', v') :: rest, k, v =>
      if k' = k then (k, v) :: rest else (k', v') :: dictSet rest k v

/-- Python truthiness of a JSON value (`bool(v)`). -/
def truthy : JVal → Bool
  | .null => false
  | .bool b => b
  | .num n => decide (n ≠ 0)
  | .str s => decide (s ≠ "")
  | .obj l => !l.isEmpty

/-- Characters Python's `str.strip()` removes, as modelled here (ASCII whitespace). -/
def pyStrip (cs : List Char) : List Char :=
  ((cs.dropWhile Char.isWhitespace).reverse.dropWhile Char.isWhitespace).reverse

/-- Value of a decimal digit character, `none` for a non-digit. -/
def digitVal (c : Char) : Option Nat :=
  if c.isDigit then some (c.toNat - 48) else none

/-- Python `int(s)` for a decimal string: optional surrounding whitespace,
optional sign, then decimal digits.  (CPython additionally accepts underscore
group separators; no claim exercises them.) -/
def digitsToNat (cs : List Char) : Option Nat :=
  if cs ≠ [] ∧ cs.all Char.isDigit then
    some (cs.foldl (fun a c => a * 10 + (c.toNat - 48)) 0)
  else none

def pyIntOfStr (s : String) : Option Int :=
  match pyStrip s.toList with
  | '-' :: rest => (digitsToNat rest).map (fun n => -(n : Int))
  | '+' :: rest => (digitsToNat rest).map (fun n => (n : Int))
  | cs => (digitsToNat cs).map (fun n => (n : Int))

/-- Python `int(v)` on a JSON value: identity on ints, `True`/`False` map to
1/0 (`bool` is an `int` subclass), numeric strings are parsed, and every
other value raises (`none`). -/
def pyInt : JVal → Option Int
  | .num n => some n
  | .bool b => some (if b then 1 else 0)
  | .str s => pyIntOfStr s
  | _ => none

/-- Python `s.split("; ")` specialised to the two-character separator used by
`parse_cookies` and the `lastActiveOrg` scan. -/
def splitSemiSpace : List Char → List (List Char)
  | [] => [[]]
  | ';' :: ' ' :: rest => [] :: splitSemiSpace rest
  | c :: rest =>
      match splitSemiSpace rest with
      | [] => [[c]]
      | t :: ts => (c :: t) :: ts

/-- Split a character list at the first `'='`: models `part.find("=")`
followed by the slices `part[:idx]` and `part[idx+1:]`; `none` models
`find` returning `-1`. -/
def findEqSplit : List Char → Option (List Char × List Char)
  | [] => none
  | c :: rest =>
      if c = '=' then some ([], rest)
      else (findEqSplit rest).map (fun p => (c :: p.1, p.2))

/-- Python `s.replace("Z", "+00:00")` at the character level. -/
def replaceZChars : List Char → List Char
  | [] => []
  | c :: rest =>
      if c = 'Z' then '+' :: '0' :: '0' :: ':' :: '0' :: '0' :: replaceZChars rest
      else c :: replaceZChars rest

/-- Substring test on character lists (used to state that an error message
contains a given word). -/
def isSubstring : List Char → List Char → Bool
  | needle, [] => needle.isEmpty
  | needle, c :: rest => needle.isPrefixOf (c :: rest) || isSubstring needle rest

/-! ### The datetime model

`DT` models a Python `datetime` as used by the scripts: calendar fields plus an
optional fixed UTC offset in minutes.  `isoChars` models `datetime.isoformat()`
(default `"T"` separator, fractional part emitted only when the microsecond
field is nonzero, offset emitted as a sign followed by `HH:MM`).
`parseDTChars` models `datetime.fromisoformat` on the grammar the scripts can
feed it.  Two deliberate, claim-irrelevant deltas from CPython: the day field is
validated against 31 uniformly rather than the month length, and an offset's
seconds component, when present in the input, is accepted and dropped (the
printer never emits one). -/

structure DT where
  year : Nat
  month : Nat
  day : Nat
  hour : Nat
  minute : Nat
  second : Nat
  microsecond : Nat
  tz : Option Int
deriving Repr, DecidableEq

def pad2 (n : Nat) : List Char :=
  [Nat.digitChar (n / 10), Nat.digitChar (n % 10)]

def pad4 (n : Nat) : List Char :=
  [Nat.digitChar (n / 1000), Nat.digitChar (n / 100 % 10),
   Nat.digitChar (n / 10 % 10), Nat.digitChar (n % 10)]

def pad6 (n : Nat) : List Char :=
  [Nat.digitChar (n / 100000), Nat.digitChar (n / 10000 % 10),
   Nat.digitChar (n / 1000 % 10), Nat.digitChar (n / 100 % 10),
   Nat.digitChar (n / 10 % 10), Nat.digitChar (n % 10)]

/-- Offset suffix of `datetime.isoformat`: nothing for a naive datetime,
otherwise a sign and `HH:MM` from the absolute offset. -/
def tzChars : Option Int → List Char
  | none => []
  | some off =>
      (if off < 0 then '-' else '+') ::
        (pad2 (off.natAbs / 60) ++ ':' :: pad2 (off.natAbs % 60))

/-- Fractional-seconds part of `datetime.isoformat` with the default
`timespec="auto"`: empty when the microsecond field is zero. -/
def fracChars (micro : Nat) : List Char :=
  if micro = 0 then [] else '.' :: pad6 micro

def isoChars (t : DT) : List Char :=
  pad4 t.year ++ '-' :: (pad2 t.month ++ '-' :: (pad2 t.day ++ 'T' ::
    (pad2 t.hour ++ ':' :: (pad2 t.minute ++ ':' ::
      (pad2 t.second ++ (fracChars t.microsecond ++ tzChars t.tz))))))

/-- Model of `datetime.isoformat()`. -/
def isoformat (t : DT) : String := String.mk (isoChars t)

/-- Read exactly two digit characters. -/
def read2 : List Char → Option (Nat × List Char)
  | a :: b :: rest =>
      match digitVal a, digitVal b with
      | some x, some y => some (x * 10 + y, rest)
      | _, _ => none
  | _ => none

/-- Read exactly four digit characters. -/
def read4 : List Char → Option (Nat × List Char)
  | a :: b :: c :: e :: rest =>
      match digitVal a, digitVal b, digitVal c, digitVal e with
      | some w, some x, some y, some z => some (((w * 10 + x) * 10 + y) * 10 + z, rest)
      | _, _, _, _ => none
  | _ => none

/-- Greedily read digit characters, returning their values and the rest. -/
def readDigits : List Char → List Nat × List Char
  | [] => ([], [])
  | c :: rest =>
      match digitVal c with
      | some v =>
          let p := readDigits rest
          (v :: p.1, p.2)
      | none => ([], c :: rest)

def digitsVal (ds : List Nat) : Nat :=
  ds.foldl (fun a v => a * 10 + v) 0

def pow10 : Nat → Nat
  | 0 => 1
  | n + 1 => 10 * pow10 n

/-- Expect one specific character. -/
def expect (c : Char) : List Char → Option (List Char)
  | x :: rest => if x = c then some rest else none
  | _ => none

/-- Parse the UTC-offset suffix: empty means a naive datetime; otherwise a
sign, `HH:MM`, and an optional seconds (and fraction) component that is
validated and dropped. -/
def parseTz (cs : List Char) : Option (Option Int) :=
  match cs with
  | [] => some none
  | sgn :: r1 =>
      if sgn = '+' ∨ sgn = '-' then
        match read2 r1 with
        | none => none
        | some (th, r2) =>
            match expect ':' r2 with
            | none => none
            | some r3 =>
                match read2 r3 with
                | none => none
                | some (tm, r4) =>
                    if 1440 ≤ th * 60 + tm then none
                    else
                      let off : Int :=
                        if sgn = '-' then -((th * 60 + tm : Nat) : Int)
                        else ((th * 60 + tm : Nat) : Int)
                      match r4 with
                      | [] => some (some off)
                      | ':' :: r5 =>
                          match read2 r5 with
                          | none => none
                          | some (_, r6) =>
                              match r6 with
                              | [] => some (some off)
                              | '.' :: r7 =>
                                  let p := readDigits r7
                                  if 1 ≤ p.1.length ∧ p.1.length ≤ 6 ∧ p.2 = [] then
                                    some (some off)
                                  else none
                              | _ => none
                      | _ => none
      else none

/-- Parse an optional fractional-seconds part followed by the offset suffix. -/
def parseFracTz (cs : List Char) : Option (Nat × Option Int) :=
  match cs with
  | '.' :: r1 =>
      let p := readDigits r1
      if 1 ≤ p.1.length ∧ p.1.length ≤ 6 then
        (parseTz p.2).map (fun tz => (digitsVal p.1 * pow10 (6 - p.1.length), tz))
      else none
  | _ => (parseTz cs).map (fun tz => (0, tz))

/-- Parse the time-of-day part (after the separator character), with
minutes, seconds and fraction optional as in `fromisoformat`. -/
def parseTimePart (y mo dy : Nat) (cs : List Char) : Option DT :=
  match read2 cs with
  | none => none
  | some (h, r1) =>
      if 24 ≤ h then none
      else
        match r1 with
        | ':' :: r2 =>
            match read2 r2 with
            | none => none
            | some (mi, r3) =>
                if 60 ≤ mi then none
                else
                  match r3 with
                  | ':' :: r4 =>
                      match read2 r4 with
                      | none => none
                      | some (se, r5) =>
                          if 60 ≤ se then none
                          else
                            (parseFracTz r5).map
                              (fun p => ⟨y, mo, dy, h, mi, se, p.1, p.2⟩)
                  | _ => (parseTz r3).map (fun tz => ⟨y, mo, dy, h, mi, 0, 0, tz⟩)
        | _ => (parseTz r1).map (fun tz => ⟨y, mo, dy, h, 0, 0, 0, tz⟩)

/-- Model of `datetime.fromisoformat` (see the section comment): a strict
`YYYY-MM-DD` date, then optionally one separator character and a time part. -/
def parseDTChars (cs : List Char) : Option DT :=
  match read4 cs with
  | none => none
  | some (y, r1) =>
      match expect '-' r1 with
      | none => none
      | some r2 =>
          match read2 r2 with
          | none => none
          | some (mo, r3) =>
              match expect '-' r3 with
              | none => none
              | some r4 =>
                  match read2 r4 with
                  | none => none
                  | some (dy, r5) =>
                      if 1 ≤ y ∧ 1 ≤ mo ∧ mo ≤ 12 ∧ 1 ≤ dy ∧ dy ≤ 31 then
                        match r5 with
                        | [] => some ⟨y, mo, dy, 0, 0, 0, 0, none⟩
                        | _ :: r6 => parseTimePart y mo dy r6
                      else none

/-- Model of `datetime.fromisoformat(s)`. -/
def fromiso (s : String) : Option DT := parseDTChars s.toList

/-- Model of `s.replace("Z", "+00:00")`. -/
def replaceZ (s : String) : String := String.mk (replaceZChars s.toList)

/-- Offset bound accepted by Python's `timezone` (strictly less than 24 hours),
as printable with two-digit fields. -/
def tzOk : Option Int → Bool
  | none => true
  | some off => decide (off.natAbs ≤ 1439)

/-- Well-formedness of a `DT` value: the ranges `datetime` itself enforces
(with the day bounded by 31, see the section comment). -/
def wfDT (t : DT) : Bool :=
  decide (1 ≤ t.year) && decide (t.year ≤ 9999) &&
  decide (1 ≤ t.month) && decide (t.month ≤ 12) &&
  decide (1 ≤ t.day) && decide (t.day ≤ 31) &&
  decide (t.hour ≤ 23) && decide (t.minute ≤ 59) && decide (t.second ≤ 59) &&
  decide (t.microsecond ≤ 999999) && tzOk t.tz

/-- Well-formedness of an optional datetime slot. -/
def wfOptDT : Option DT → Bool
  | none => true
  | some t => wfDT t

/-! ### get_usage.py -/

/-- Playwright cookie record built by `parse_cookies`. -/
structure Cookie where
  name : String
  value : String
  domain : String
  path : String
deriving Repr, DecidableEq

/-- Loop body of `parse_cookies`: one segment of the `"; "`-split cookie
string, returning `none` when the segment is skipped by a `continue`.
The function is total, so a skipped segment can never raise. -/
def processSeg (domain : String) (seg : List Char) : Option Cookie :=
  let part := pyStrip seg
  if part = [] then none
  else
    match findEqSplit part with
    | none => none
    | some (n, v) =>
        let name := pyStrip n
        if name = [] then none
        else some ⟨String.mk name, String.mk (pyStrip v), domain, "/"⟩

/-- Model of `parse_cookies` in `get_usage.py`. -/
def parse_cookies (domain : String) (cookie_str : List Char) : List Cookie :=
  (splitSemiSpace cookie_str).filterMap (processSeg domain)

def defaultOrgId : String := "32321586-22bf-4e89-9007-8b6469448821"

/-- Python `part.split("=", 1)[1]`.  Under the `startswith("lastActiveOrg=")`
guard the segment always contains an `'='`, so the `none` fallback is
unreachable where this is used. -/
def afterEq (cs : List Char) : List Char :=
  match findEqSplit cs with
  | some p => p.2
  | none => []

/-- The `for part in cookie_str.split("; ")` loop of `get_usage` extracting
the `lastActiveOrg` cookie value (with `break` on the first match). -/
def scanOrg : List (List Char) → Option (List Char)
  | [] => none
  | part :: rest =>
      if "lastActiveOrg=".toList.isPrefixOf (pyStrip part) then
        some (pyStrip (afterEq part))
      else scanOrg rest

/-- Organisation-id resolution of `get_usage` (lines 93-99): a falsy `org_id`
argument triggers the cookie scan, and a falsy scan result (no match, or an
empty extracted value) falls back to the hardcoded default UUID. -/
def resolveOrgId (org_id : Option String) (cookie_str : List Char) : String :=
  let o0 := org_id.getD ""
  if o0 = "" then
    match scanOrg (splitSemiSpace cookie_str) with
    | some found => if found = [] then defaultOrgId else String.mk found
    | none => defaultOrgId
  else o0

def buildUsageUrl (oid : String) : String :=
  "https://claude.ai/api/organizations/" ++ oid ++ "/usage"

/-- Outcome of the precondition phase of `get_usage`: either an early `None`
return before any browser session is opened (the spec's `NotAttempted`), or
the URL and cookie list the browser session would be driven with. -/
inductive FetchStep where
  | notAttempted (reason : String) : FetchStep
  | browse (url : String) (cookies : List Cookie) : FetchStep
deriving Repr, DecidableEq

/-- Precondition phase of `get_usage` (lines 80-102 of `get_usage.py`); the
Playwright import and the filesystem are abstracted into the arguments.
Returning `None` before the `sync_playwright` block is the `NotAttempted`
outcome: no fetch is performed. -/
def get_usage_prepare (cookieFileExists : Bool) (content : List Char)
    (org_id : Option String) : FetchStep :=
  if cookieFileExists = false then .notAttempted "Cookie file not found"
  else
    let cookie_str := pyStrip content
    if cookie_str = [] then .notAttempted "Cookie file is empty"
    else .browse (buildUsageUrl (resolveOrgId org_id cookie_str))
                 (parse_cookies "claude.ai" cookie_str)

/-- Status classification of `get_usage` (lines 131-137): the error message
assigned from the navigation response status, `none` for a 200. -/
def classify_status (status : Nat) : Option String :=
  if status = 401 then some "Cookie expired (401 Unauthorized)"
  else if status = 403 then
    some "Access denied (403 Forbidden). Try renewing org_id or cookies."
  else if status ≠ 200 then some ("API Error: " ++ toString status)
  else none

/-- Final result of `get_usage` (lines 129-152) as a function of the
navigation response status (`none` when `page.goto` returned no response)
and the payload captured by the 200-response handler: an error dictionary
when an error message was set and no payload was captured, otherwise the
captured payload (or `none`, Python `None`). -/
def get_usage_result (navStatus : Option Nat) (response_data : Option JVal) :
    Option JVal :=
  let error_msg : Option String :=
    match navStatus with
    | some st => classify_status st
    | none => if response_data.isNone then some "No response received from API" else none
  match error_msg, response_data with
  | some e, none => some (.obj [("error", .str e)])
  | _, _ => response_data

/-! ### claude_usage_indicator.py -/

/-- One window of `self.usage_data`: the `usage` slot holds whatever Python
value was assigned (an int after a live parse, but copied verbatim from the
config file on the cached path), the `reset` slot an optional datetime. -/
structure UsageWindow where
  usage : JVal
  reset : Option DT
deriving Repr

/-- The `self.usage_data` state (the unused `last_update` slot is omitted:
the source initialises it to `None` and never reads or writes it). -/
structure UsageData where
  five_hour : UsageWindow
  weekly : UsageWindow
deriving Repr

/-- The initial `self.usage_data` built in `__init__`. -/
def initUsageData : UsageData :=
  ⟨⟨.num 0, none⟩, ⟨.num 0, none⟩⟩

/-- Which arm of `fetch_usage` produced the result: `live` is CASE 1,
`cached` CASE 2, `default` CASE 3, and `errored` the outer exception
handler (an exception escaped one of the cases). -/
inductive Branch where
  | live : Branch
  | cached : Branch
  | default : Branch
  | errored : Branch
deriving Repr, DecidableEq

/-- One window of `_parse_api_usage` (either the `five_hour` or the
`seven_day` block).  Returns the updated window and, in the second slot, the
exception that escaped, if any; the window component is the state at the
moment the exception was raised (assignments already executed are kept,
mirroring the in-place mutation of `self.usage_data`).
An absent or falsy window value is skipped; a truthy non-dict raises on
`.get`; `int()` raises on an uncoercible utilization; a truthy non-string
`resets_at` raises on `.replace`; a string `resets_at` that
`datetime.fromisoformat` rejects is swallowed by the inner
`except (ValueError, TypeError)` and leaves the reset slot unassigned. -/
def parseWindow (data : Dict) (key : String) (w : UsageWindow) :
    UsageWindow × Option String :=
  match dictGet data key with
  | none => (w, none)
  | some fh =>
      if truthy fh = false then (w, none)
      else
        match fh with
        | .obj flds =>
            match pyInt (dictGetD flds "utilization" (.num 0)) with
            | none => (w, some "ValueError: invalid literal for int()")
            | some i =>
                let w1 : UsageWindow := ⟨.num i, w.reset⟩
                match dictGet flds "resets_at" with
                | none => (w1, none)
                | some r =>
                    if truthy r = false then (w1, none)
                    else
                      match r with
                      | .str s =>
                          match fromiso (replaceZ s) with
                          | some t => ({ w1 with reset := some t }, none)
                          | none => (w1, none)
                      | _ => (w1, some "AttributeError: replace")
        | _ => (w, some "AttributeError: get")

/-- Model of `_parse_api_usage`: the `five_hour` block, then the `seven_day`
block; an exception aborts the remainder but keeps the mutations already
performed. -/
def parse_api_usage (data : Dict) (u : UsageData) : UsageData × Option String :=
  match parseWindow data "five_hour" u.five_hour with
  | (fh1, some e) => ({ u with five_hour := fh1 }, some e)
  | (fh1, none) =>
      let u1 : UsageData := { u with five_hour := fh1 }
      match parseWindow data "seven_day" u1.weekly with
      | (wk1, some e) => ({ u1 with weekly := wk1 }, some e)
      | (wk1, none) => ({ u1 with weekly := wk1 }, none)

/-- The config dictionary written by CASE 1 of `fetch_usage` (lines 215-226):
built from scratch, with the reset keys present exactly when the in-memory
reset slots are set (a datetime object is always truthy). -/
def buildConfig (u : UsageData) (now : String) : Dict :=
  [("five_hour_usage", u.five_hour.usage),
   ("weekly_usage", u.weekly.usage),
   ("last_auto_update", .str now)]
  ++ (match u.five_hour.reset with
      | some t => [("five_hour_reset", .str (isoformat t))]
      | none => [])
  ++ (match u.weekly.reset with
      | some t => [("weekly_reset", .str (isoformat t))]
      | none => [])

/-- The example config written by CASE 3 of `fetch_usage` (lines 258-264). -/
def exampleConfig : Dict :=
  [("note", .str "Configure cookies.txt for automatic updates"),
   ("usage_percentage", .num 0),
   ("reset_hours", .num 5)]

/-- One reset key of CASE 2 (lines 239-251): an absent or falsy value is
skipped, a string value is parsed with failures swallowed, and a truthy
non-string raises on `.replace` (second slot). -/
def readReset (config : Dict) (key : String) (old : Option DT) :
    Option DT × Option String :=
  match dictGet config key with
  | none => (old, none)
  | some v =>
      if truthy v = false then (old, none)
      else
        match v with
        | .str s =>
            match fromiso (replaceZ s) with
            | some t => (some t, none)
            | none => (old, none)
        | _ => (old, some "AttributeError: replace")

/-- A reset slot of the config file is well typed when it is absent, falsy, or
a string — the shape the spec's data model gives the `five_hour_reset` and
`weekly_reset` keys (ISO-8601 strings).  A truthy non-string value would make
`config[key].replace` raise an `AttributeError` in CASE 2. -/
def strOrFalsy : Option JVal → Bool
  | none => true
  | some v => !truthy v || (match v with | .str _ => true | _ => false)

/-- Both reset keys of a config file are well typed (see `strOrFalsy`). -/
def resetKeysOk (c : Dict) : Bool :=
  strOrFalsy (dictGet c "five_hour_reset") && strOrFalsy (dictGet c "weekly_reset")

/-- Result of one `fetch_usage` run: the in-memory usage state, the config
file contents afterwards, the branch taken, the failure message passed to
`show_error` by CASE 2 (if any), and the exception caught by the outer
handler (if any). -/
structure FetchResult where
  usage : UsageData
  file : Option Dict
  source : Branch
  warned : Option JVal
  exc : Option String
deriving Repr

/-- CASE 2 of `fetch_usage` (lines 228-254): copy the usage values from the
config file (with the `usage_percentage` fallback for the five-hour window),
then parse the two reset keys in order; an exception keeps the mutations
already performed and does not touch the file. -/
def fetchCase2 (config : Dict) (warn : Option JVal) (u : UsageData) : FetchResult :=
  let fh := dictGetD config "five_hour_usage" (dictGetD config "usage_percentage" (.num 0))
  let wk := dictGetD config "weekly_usage" (.num 0)
  match readReset config "five_hour_reset" u.five_hour.reset with
  | (r1, some e) =>
      ⟨⟨⟨fh, r1⟩, ⟨wk, u.weekly.reset⟩⟩, some config, .errored, warn, some e⟩
  | (r1, none) =>
      match readReset config "weekly_reset" u.weekly.reset with
      | (r2, some e) =>
          ⟨⟨⟨fh, r1⟩, ⟨wk, r2⟩⟩, some config, .errored, warn, some e⟩
      | (r2, none) =>
          ⟨⟨⟨fh, r1⟩, ⟨wk, r2⟩⟩, some config, .cached, warn, none⟩

/-- CASE 3 of `fetch_usage` (lines 256-266): write the example config and
zero both usage values (the reset slots are not touched). -/
def fetchCase3 (u : UsageData) : FetchResult :=
  ⟨⟨⟨.num 0, u.five_hour.reset⟩, ⟨.num 0, u.weekly.reset⟩⟩,
   some exampleConfig, .default, none, none⟩

/-- Model of `fetch_usage` (lines 199-272 of `claude_usage_indicator.py`).
`api_data` is the `_fetch_usage_from_api` result (`none` models Python
`None`: no cookie file or no helper script).  CASE 1 requires a truthy
(nonempty) payload without an `"error"` key; otherwise CASE 2 runs when the
config file exists (showing the error value when there is one), else CASE 3.
An exception inside CASE 1 reaches the outer handler: the partially updated
state is kept and the config file is not written. -/
def fetch_usage (api_data : Option Dict) (file : Option Dict) (u : UsageData)
    (now : String) : FetchResult :=
  match api_data with
  | some d =>
      if (!d.isEmpty && !dictHas d "error") = true then
        match parse_api_usage d u with
        | (u1, some e) => ⟨u1, file, .errored, none, some e⟩
        | (u1, none) => ⟨u1, some (buildConfig u1 now), .live, none, none⟩
      else
        match file with
        | some config =>
            fetchCase2 config (if (!d.isEmpty && dictHas d "error") = true
                               then dictGet d "error" else none) u
        | none => fetchCase3 u
  | none =>
      match file with
      | some config => fetchCase2 config none u
      | none => fetchCase3 u

/-! ### update_claude_usage.py -/

/-- The template config `update_usage` starts from when no config exists. -/
def defaultManualConfig : Dict :=
  [("note", .str "Claude Usage Indicator configuration"),
   ("instructions", .str "Update usage_percentage manually or use the update_claude_usage.py script"),
   ("reset_hours", .num 5)]

/-- Model of `update_usage` (lines 80-108 of `update_claude_usage.py`); the
CLI passes `float(sys.argv[1])` and `update_usage` stores `int(percentage)`,
modelled here by an integer argument (the claims use the integral input 45). -/
def update_usage (percentage : Int) (now : String) (existing : Option Dict) : Dict :=
  let config := existing.getD defaultManualConfig
  dictSet (dictSet config "usage_percentage" (.num percentage))
    "last_manual_update" (.str now)

/-- Python `a or b` on JSON values. -/
def pyOr (a b : JVal) : JVal := if truthy a then a else b

/-- Core of `fetch_and_update` (lines 50-71 of `update_claude_usage.py`),
given the decoded subprocess payload and the existing config file.  `.ok
none` models the `return False` paths that write nothing; `.error` models an
uncaught exception (`.get` on a non-dict, or `int()` on an uncoercible
utilization); `.ok (some c)` is the config written. -/
def fetch_and_update_core (data : Dict) (existing : Option Dict) (now : String) :
    Except String (Option Dict) :=
  let usage_info := pyOr (dictGetN data "five_hour") (dictGetN data "seven_day")
  if truthy usage_info = false then .ok none
  else
    match usage_info with
    | .obj flds =>
        let utilization := dictGetD flds "utilization" (.num 0)
        let resets_at := dictGetN flds "resets_at"
        let config := existing.getD []
        match pyInt utilization with
        | none => .error "ValueError: invalid literal for int()"
        | some i =>
            let c1 := dictSet config "usage_percentage" (.num i)
            let c2 := dictSet c1 "last_auto_update" (.str now)
            let c3 := if truthy resets_at then dictSet c2 "reset_at" resets_at else c2
            .ok (some c3)
    | _ => .error "AttributeError: get"

/-! ### Helper lemmas -/

theorem dictGet_dictSet_ne (c : Dict) (k k' : String) (v : JVal) (h : k' ≠ k) :
    dictGet (dictSet c k v) k' = dictGet c k' := by
  induction c with
  | nil => simp [dictSet, dictGet, List.find?, Ne.symm h]
  | cons p rest ih =>
      obtain ⟨pk, pv⟩ := p
      by_cases hk : pk = k
      · subst hk
        simp [dictSet, dictGet, List.find?, Ne.symm h]
      · simp only [dictSet, hk, if_false]
        simp only [dictGet, List.find?] at ih ⊢
        by_cases h2 : pk = k'
        · subst h2; simp
        · simpa [h2] using ih

theorem dictGet_dictSet_self (c : Dict) (k : String) (v : JVal) :
    dictGet (dictSet c k v) k = some v := by
  induction c with
  | nil => simp [dictSet, dictGet, List.find?]
  | cons p rest ih =>
      obtain ⟨pk, pv⟩ := p
      by_cases hk : pk = k
      · subst hk; simp [dictSet, dictGet, List.find?]
      · simp only [dictSet, hk, if_false]
        simp only [dictGet, List.find?] at ih ⊢
        simp [hk, ih]

theorem digitVal_digitChar (m : Nat) (h : m < 10) :
    digitVal (Nat.digitChar m) = some m := by
  interval_cases m <;> decide

theorem digitChar_ne_Z (n : Nat) (h : n < 10) : Nat.digitChar n ≠ 'Z' := by
  interval_cases n <;> decide

theorem read2_pad2 (m : Nat) (h : m < 100) (rest : List Char) :
    read2 (pad2 m ++ rest) = some (m, rest) := by
  have h1 := digitVal_digitChar (m / 10) (by omega)
  have h2 := digitVal_digitChar (m % 10) (by omega)
  simp [pad2, read2, h1, h2]
  omega

theorem read4_pad4 (m : Nat) (h : m < 10000) (rest : List Char) :
    read4 (pad4 m ++ rest) = some (m, rest) := by
  have h1 := digitVal_digitChar (m / 1000) (by omega)
  have h2 := digitVal_digitChar (m / 100 % 10) (by omega)
  have h3 := digitVal_digitChar (m / 10 % 10) (by omega)
  have h4 := digitVal_digitChar (m % 10) (by omega)
  simp [pad4, read4, h1, h2, h3, h4]
  omega

def noDigitHead : List Char → Bool
  | [] => true
  | c :: _ => (digitVal c).isNone

theorem readDigits_stop (l : List Char) (h : noDigitHead l = true) :
    readDigits l = ([], l) := by
  cases l with
  | nil => rfl
  | cons c rest =>
      simp [noDigitHead, Option.isNone_iff_eq_none] at h
      simp [readDigits, h]

theorem readDigits_pad6 (m : Nat) (h : m < 1000000) (rest : List Char)
    (hrest : noDigitHead rest = true) :
    readDigits (pad6 m ++ rest) =
      ([m / 100000, m / 10000 % 10, m / 1000 % 10, m / 100 % 10, m / 10 % 10, m % 10], rest) := by
  have h1 := digitVal_digitChar (m / 100000) (by omega)
  have h2 := digitVal_digitChar (m / 10000 % 10) (by omega)
  have h3 := digitVal_digitChar (m / 1000 % 10) (by omega)
  have h4 := digitVal_digitChar (m / 100 % 10) (by omega)
  have h5 := digitVal_digitChar (m / 10 % 10) (by omega)
  have h6 := digitVal_digitChar (m % 10) (by omega)
  simp [pad6, readDigits, h1, h2, h3, h4, h5, h6, readDigits_stop rest hrest]

theorem noDigitHead_tzChars (o : Option Int) : noDigitHead (tzChars o) = true := by
  cases o with
  | none => rfl
  | some off => by_cases h : off < 0 <;> simp [tzChars, h, noDigitHead, digitVal]

theorem parseTz_tzChars (o : Option Int) (h : tzOk o = true) :
    parseTz (tzChars o) = some o := by
  cases o with
  | none => rfl
  | some off =>
      simp only [tzOk, decide_eq_true_eq] at h
      have hd : off.natAbs / 60 < 100 := by omega
      have hm : off.natAbs % 60 < 100 := by omega
      have hr2 : read2 (pad2 (off.natAbs % 60)) = some (off.natAbs % 60, []) := by
        rw [show pad2 (off.natAbs % 60) = pad2 (off.natAbs % 60) ++ [] from (List.append_nil _).symm]
        exact read2_pad2 _ hm []
      have hlt : ¬ (1440 ≤ off.natAbs / 60 * 60 + off.natAbs % 60) := by omega
      by_cases hneg : off < 0
      all_goals
        first
        | (simp only [tzChars, hneg, if_true, if_false, parseTz, read2_pad2 _ hd, expect, if_pos,
             hr2, hlt, List.cons_append, List.nil_append]
           rw [Nat.div_add_mod' off.natAbs 60]
           simp only [true_or, or_true, if_true, show ('+' = '-') = False from by decide,
             if_false, Option.some.injEq]
           omega)

def noDotHead : List Char → Bool
  | [] => true
  | c :: _ => decide (c ≠ '.')

theorem parseFracTz_noDot (cs : List Char) (h : noDotHead cs = true) :
    parseFracTz cs = (parseTz cs).map (fun tz => (0, tz)) := by
  unfold parseFracTz
  split
  · rename_i r1 heq
    simp [noDotHead] at h
  · rfl

theorem noDotHead_tzChars (o : Option Int) : noDotHead (tzChars o) = true := by
  cases o with
  | none => rfl
  | some off => by_cases h : off < 0 <;> simp [tzChars, h, noDotHead]

theorem parseFracTz_chars (micro : Nat) (o : Option Int) (hm : micro ≤ 999999)
    (ho : tzOk o = true) :
    parseFracTz (fracChars micro ++ tzChars o) = some (micro, o) := by
  by_cases h0 : micro = 0
  · subst h0
    rw [show fracChars 0 = [] from rfl, List.nil_append]
    rw [parseFracTz_noDot _ (noDotHead_tzChars o), parseTz_tzChars o ho]
    rfl
  · simp only [fracChars, if_neg h0, List.cons_append]
    simp only [parseFracTz]
    rw [readDigits_pad6 micro (by omega) _ (noDigitHead_tzChars o)]
    simp only [List.length_cons, List.length_nil]
    norm_num
    rw [parseTz_tzChars o ho]
    simp [digitsVal, pow10]
    omega

theorem parseDTChars_isoChars (t : DT) (h : wfDT t = true) :
    parseDTChars (isoChars t) = some t := by
  obtain ⟨y, mo, dy, hr, mi, se, mic, tz⟩ := t
  simp only [wfDT, tzOk, Bool.and_eq_true, decide_eq_true_eq] at h
  obtain ⟨⟨⟨⟨⟨⟨⟨⟨⟨⟨hy1, hy2⟩, hmo1⟩, hmo2⟩, hd1⟩, hd2⟩, hh⟩, hmi⟩, hse⟩, hmc⟩, htz⟩ := h
  simp only [isoChars, parseDTChars]
  rw [read4_pad4 y (by omega)]
  simp only [expect, reduceIte]
  rw [read2_pad2 mo (by omega)]
  simp only [expect, reduceIte]
  rw [read2_pad2 dy (by omega)]
  simp only [if_pos (by omega : 1 ≤ y ∧ 1 ≤ mo ∧ mo ≤ 12 ∧ 1 ≤ dy ∧ dy ≤ 31)]
  simp only [parseTimePart]
  rw [read2_pad2 hr (by omega)]
  simp only [if_neg (by omega : ¬ 24 ≤ hr)]
  rw [read2_pad2 mi (by omega)]
  simp only [if_neg (by omega : ¬ 60 ≤ mi)]
  rw [read2_pad2 se (by omega)]
  simp only [if_neg (by omega : ¬ 60 ≤ se)]
  rw [parseFracTz_chars mic tz hmc htz]
  rfl

theorem replaceZChars_append (a b : List Char) :
    replaceZChars (a ++ b) = replaceZChars a ++ replaceZChars b := by
  induction a with
  | nil => rfl
  | cons c rest ih =>
      by_cases h : c = 'Z' <;> simp [replaceZChars, h, ih]

theorem replaceZChars_of_no_Z (l : List Char) (h : ∀ c ∈ l, c ≠ 'Z') :
    replaceZChars l = l := by
  induction l with
  | nil => rfl
  | cons c rest ih =>
      have hc : c ≠ 'Z' := h c (by simp)
      simp [replaceZChars, hc, ih (fun x hx => h x (by simp [hx]))]

theorem no_Z_pad2 (n : Nat) (h : n < 100) : ∀ c ∈ pad2 n, c ≠ 'Z' := by
  intro c hc
  simp [pad2] at hc
  rcases hc with h1 | h1 <;> subst h1 <;> exact digitChar_ne_Z _ (by omega)

theorem no_Z_pad4 (n : Nat) (h : n < 10000) : ∀ c ∈ pad4 n, c ≠ 'Z' := by
  intro c hc
  simp [pad4] at hc
  rcases hc with h1 | h1 | h1 | h1 <;> subst h1 <;> exact digitChar_ne_Z _ (by omega)

theorem no_Z_pad6 (n : Nat) (h : n < 1000000) : ∀ c ∈ pad6 n, c ≠ 'Z' := by
  intro c hc
  simp [pad6] at hc
  rcases hc with h1 | h1 | h1 | h1 | h1 | h1 <;> subst h1 <;> exact digitChar_ne_Z _ (by omega)

theorem no_Z_isoChars (t : DT) (h : wfDT t = true) : ∀ c ∈ isoChars t, c ≠ 'Z' := by
  obtain ⟨y, mo, dy, hr, mi, se, mic, tz⟩ := t
  simp only [wfDT, tzOk, Bool.and_eq_true, decide_eq_true_eq] at h
  obtain ⟨⟨⟨⟨⟨⟨⟨⟨⟨⟨hy1, hy2⟩, hmo1⟩, hmo2⟩, hd1⟩, hd2⟩, hh⟩, hmi⟩, hse⟩, hmc⟩, htz⟩ := h
  intro c hc
  simp only [isoChars, List.mem_append, List.mem_cons] at hc
  rcases hc with hc | hc | hc | hc | hc | hc | hc | hc | hc | hc | hc
  · exact no_Z_pad4 y (by omega) c hc
  · subst hc; decide
  · exact no_Z_pad2 mo (by omega) c hc
  · subst hc; decide
  · exact no_Z_pad2 dy (by omega) c hc
  · subst hc; decide
  · exact no_Z_pad2 hr (by omega) c hc
  · subst hc; decide
  · exact no_Z_pad2 mi (by omega) c hc
  · subst hc; decide
  · rcases hc with hc | hc | hc
    · exact no_Z_pad2 se (by omega) c hc
    · by_cases h0 : mic = 0
      · simp [fracChars, h0] at hc
      · simp only [fracChars, if_neg h0, List.mem_cons] at hc
        rcases hc with hc | hc
        · subst hc; decide
        · exact no_Z_pad6 mic (by omega) c hc
    · cases tz with
      | none => simp [tzChars] at hc
      | some off =>
          simp only [decide_eq_true_eq] at htz
          simp only [tzChars, List.mem_cons, List.mem_append] at hc
          rcases hc with hc | hc | hc
          · subst hc
            by_cases hneg : off < 0 <;> simp [hneg]
          · exact no_Z_pad2 (off.natAbs / 60) (by omega) c hc
          · rcases hc with hc | hc
            · subst hc; decide
            · exact no_Z_pad2 (off.natAbs % 60) (by omega) c hc

theorem fromiso_replaceZ_isoformat (t : DT) (h : wfDT t = true) :
    fromiso (replaceZ (isoformat t)) = some t := by
  show parseDTChars (replaceZChars (isoChars t)) = some t
  rw [replaceZChars_of_no_Z _ (no_Z_isoChars t h), parseDTChars_isoChars t h]

theorem truthy_isoformat (t : DT) : truthy (.str (isoformat t)) = true := by
  simp [truthy, isoformat, String.ext_iff, isoChars, pad4]

theorem dictGet_buildConfig_fhu (u : UsageData) (now : String) :
    dictGet (buildConfig u now) "five_hour_usage" = some u.five_hour.usage := by
  cases u.five_hour.reset <;> cases u.weekly.reset <;> rfl

theorem dictGet_buildConfig_wku (u : UsageData) (now : String) :
    dictGet (buildConfig u now) "weekly_usage" = some u.weekly.usage := by
  unfold buildConfig dictGet
  cases u.five_hour.reset <;> cases u.weekly.reset <;>
    simp [List.find?, String.ext_iff]

theorem dictGet_buildConfig_fhr (u : UsageData) (now : String) :
    dictGet (buildConfig u now) "five_hour_reset" =
      u.five_hour.reset.map (fun t => .str (isoformat t)) := by
  unfold buildConfig dictGet
  cases u.five_hour.reset <;> cases u.weekly.reset <;>
    simp [List.find?, String.ext_iff]

theorem dictGet_buildConfig_wkr (u : UsageData) (now : String) :
    dictGet (buildConfig u now) "weekly_reset" =
      u.weekly.reset.map (fun t => .str (isoformat t)) := by
  unfold buildConfig dictGet
  cases u.five_hour.reset <;> cases u.weekly.reset <;>
    simp [List.find?, String.ext_iff]

theorem readReset_ok (c : Dict) (k : String) (old : Option DT)
    (h : strOrFalsy (dictGet c k) = true) :
    (readReset c k old).2 = none := by
  unfold readReset
  cases hg : dictGet c k with
  | none => rfl
  | some v =>
      rw [hg] at h
      simp only [strOrFalsy, Bool.or_eq_true, Bool.not_eq_true'] at h
      cases v with
      | str s =>
          by_cases ht : truthy (.str s) = false
          · simp [ht]
          · simp only [if_neg ht]
            cases hf : fromiso (replaceZ s) <;> simp
      | null => simp [truthy]
      | bool b =>
          rcases h with h | h
          · simp [truthy] at h
            simp [h, truthy]
          · simp at h
      | num n =>
          rcases h with h | h
          · simp [h]
          · simp at h
      | obj l =>
          rcases h with h | h
          · simp [h]
          · simp at h

theorem fetchCase2_file (c : Dict) (w : Option JVal) (u : UsageData) :
    (fetchCase2 c w u).file = some c := by
  unfold fetchCase2
  rcases h1 : readReset c "five_hour_reset" u.five_hour.reset with ⟨r1, e1⟩
  cases e1 with
  | none =>
      rcases h2 : readReset c "weekly_reset" u.weekly.reset with ⟨r2, e2⟩
      cases e2 <;> simp
  | some e => simp

theorem fetchCase2_warned (c : Dict) (w : Option JVal) (u : UsageData) :
    (fetchCase2 c w u).warned = w := by
  unfold fetchCase2
  rcases h1 : readReset c "five_hour_reset" u.five_hour.reset with ⟨r1, e1⟩
  cases e1 with
  | none =>
      rcases h2 : readReset c "weekly_reset" u.weekly.reset with ⟨r2, e2⟩
      cases e2 <;> simp
  | some e => simp

theorem fetchCase2_fh_usage (c : Dict) (w : Option JVal) (u : UsageData) :
    (fetchCase2 c w u).usage.five_hour.usage =
      dictGetD c "five_hour_usage" (dictGetD c "usage_percentage" (.num 0)) := by
  unfold fetchCase2
  rcases h1 : readReset c "five_hour_reset" u.five_hour.reset with ⟨r1, e1⟩
  cases e1 with
  | none =>
      rcases h2 : readReset c "weekly_reset" u.weekly.reset with ⟨r2, e2⟩
      cases e2 <;> simp
  | some e => simp

theorem fetchCase2_wk_usage (c : Dict) (w : Option JVal) (u : UsageData) :
    (fetchCase2 c w u).usage.weekly.usage = dictGetD c "weekly_usage" (.num 0) := by
  unfold fetchCase2
  rcases h1 : readReset c "five_hour_reset" u.five_hour.reset with ⟨r1, e1⟩
  cases e1 with
  | none =>
      rcases h2 : readReset c "weekly_reset" u.weekly.reset with ⟨r2, e2⟩
      cases e2 <;> simp
  | some e => simp

theorem fetchCase2_source (c : Dict) (w : Option JVal) (u : UsageData)
    (h : resetKeysOk c = true) : (fetchCase2 c w u).source = .cached := by
  unfold fetchCase2
  simp only [resetKeysOk, Bool.and_eq_true] at h
  have h1 := readReset_ok c "five_hour_reset" u.five_hour.reset h.1
  have h2 := readReset_ok c "weekly_reset" u.weekly.reset h.2
  rcases hr1 : readReset c "five_hour_reset" u.five_hour.reset with ⟨r1, e1⟩
  rw [hr1] at h1
  cases e1 with
  | none =>
      rcases hr2 : readReset c "weekly_reset" u.weekly.reset with ⟨r2, e2⟩
      rw [hr2] at h2
      cases e2 with
      | none => simp
      | some e => simp at h2
  | some e => simp at h1

theorem findEqSplit_eq_none (cs : List Char) (h : '=' ∉ cs) : findEqSplit cs = none := by
  induction cs with
  | nil => rfl
  | cons c rest ih =>
      have hc : c ≠ '=' := fun he => h (by simp [he])
      simp [findEqSplit, hc, ih (fun hm => h (by simp [hm]))]

theorem mem_pyStrip (cs : List Char) (c : Char) (h : c ∈ pyStrip cs) : c ∈ cs := by
  unfold pyStrip at h
  have h1 := List.mem_reverse.mp h
  have h2 := (List.dropWhile_sublist _).subset h1
  have h3 := List.mem_reverse.mp h2
  exact (List.dropWhile_sublist _).subset h3

theorem processSeg_skip (domain : String) (seg : List Char)
    (h : pyStrip seg = [] ∨ '=' ∉ seg) : processSeg domain seg = none := by
  rcases h with h | h
  · simp [processSeg, h]
  · unfold processSeg
    by_cases he : pyStrip seg = []
    · simp [he]
    · have : '=' ∉ pyStrip seg := fun hm => h (mem_pyStrip seg '=' hm)
      simp [he, findEqSplit_eq_none _ this]

theorem scanOrg_eq_none (l : List (List Char))
    (h : ∀ part ∈ l, "lastActiveOrg=".toList.isPrefixOf (pyStrip part) = false) :
    scanOrg l = none := by
  induction l with
  | nil => rfl
  | cons part rest ih =>
      have hp := h part (by simp)
      simp only [scanOrg, hp, Bool.false_eq_true, if_false]
      exact ih (fun p hp2 => h p (by simp [hp2]))

theorem resetKeysOk_buildConfig (u : UsageData) (now : String) :
    resetKeysOk (buildConfig u now) = true := by
  simp only [resetKeysOk, dictGet_buildConfig_fhr, dictGet_buildConfig_wkr]
  cases u.five_hour.reset <;> cases u.weekly.reset <;> simp [strOrFalsy]

theorem readReset_buildConfig_fh (u : UsageData) (now : String)
    (h : wfOptDT u.five_hour.reset = true) :
    readReset (buildConfig u now) "five_hour_reset" u.five_hour.reset =
      (u.five_hour.reset, none) := by
  unfold readReset
  rw [dictGet_buildConfig_fhr]
  cases hr : u.five_hour.reset with
  | none => rfl
  | some t =>
      rw [hr] at h
      simp [truthy_isoformat t, fromiso_replaceZ_isoformat t h]

theorem readReset_buildConfig_wk (u : UsageData) (now : String)
    (h : wfOptDT u.weekly.reset = true) :
    readReset (buildConfig u now) "weekly_reset" u.weekly.reset =
      (u.weekly.reset, none) := by
  unfold readReset
  rw [dictGet_buildConfig_wkr]
  cases hr : u.weekly.reset with
  | none => rfl
  | some t =>
      rw [hr] at h
      simp [truthy_isoformat t, fromiso_replaceZ_isoformat t h]

theorem fetchCase2_fh_reset (c : Dict) (w : Option JVal) (u : UsageData) :
    (fetchCase2 c w u).usage.five_hour.reset =
      (readReset c "five_hour_reset" u.five_hour.reset).1 := by
  unfold fetchCase2
  rcases h1 : readReset c "five_hour_reset" u.five_hour.reset with ⟨r1, e1⟩
  cases e1 with
  | none =>
      rcases h2 : readReset c "weekly_reset" u.weekly.reset with ⟨r2, e2⟩
      cases e2 <;> simp
  | some e => simp

theorem fetchCase2_wk_reset (c : Dict) (w : Option JVal) (u : UsageData)
    (h : (readReset c "five_hour_reset" u.five_hour.reset).2 = none) :
    (fetchCase2 c w u).usage.weekly.reset =
      (readReset c "weekly_reset" u.weekly.reset).1 := by
  unfold fetchCase2
  rcases h1 : readReset c "five_hour_reset" u.five_hour.reset with ⟨r1, e1⟩
  rw [h1] at h
  cases e1 with
  | none =>
      rcases h2 : readReset c "weekly_reset" u.weekly.reset with ⟨r2, e2⟩
      cases e2 <;> simp
  | some e => simp at h

/-- Claim C9: invoking the manual-update CLI with argument 45 sets
`usage_percentage` to 45 and `last_manual_update` to the current timestamp in
the persisted config, and leaves every other pre-existing key (in particular
`last_auto_update`) unchanged. -/
theorem claim_C9_manual_update (existing : Dict) (now : String) :
    dictGet (update_usage 45 now (some existing)) "usage_percentage" = some (.num 45) ∧
    dictGet (update_usage 45 now (some existing)) "last_manual_update" = some (.str now) ∧
    (∀ k : String, k ≠ "usage_percentage" → k ≠ "last_manual_update" →
      dictGet (update_usage 45 now (some existing)) k = dictGet existing k) := by
  unfold update_usage
  simp only [Option.getD_some]
  refine ⟨?_, ?_, ?_⟩
  · rw [dictGet_dictSet_ne _ _ _ _ (by decide), dictGet_dictSet_self]
  · rw [dictGet_dictSet_self]
  · intro k h1 h2
    rw [dictGet_dictSet_ne _ _ _ _ h2, dictGet_dictSet_ne _ _ _ _ h1]

/-- Witness for C9 at a concrete config carrying a `last_auto_update` key. -/
theorem claim_C9_witness :
    dictGet (update_usage 45 "2025-06-01T10:00:00"
        (some [("last_auto_update", .str "2025-05-31T09:00:00"), ("usage_percentage", .num 10)]))
      "usage_percentage" = some (.num 45) ∧
    dictGet (update_usage 45 "2025-06-01T10:00:00"
        (some [("last_auto_update", .str "2025-05-31T09:00:00"), ("usage_percentage", .num 10)]))
      "last_manual_update" = some (.str "2025-06-01T10:00:00") ∧
    dictGet (update_usage 45 "2025-06-01T10:00:00"
        (some [("last_auto_update", .str "2025-05-31T09:00:00"), ("usage_percentage", .num 10)]))
      "last_auto_update" = some (.str "2025-05-31T09:00:00") := by
  have h := claim_C9_manual_update
    [("last_auto_update", .str "2025-05-31T09:00:00"), ("usage_percentage", .num 10)]
    "2025-06-01T10:00:00"
  refine ⟨h.1, h.2.1, (h.2.2 "last_auto_update" (by decide) (by decide)).trans rfl⟩

/-- Claim C8: a fetch whose navigation response status is 401 and which
captured no payload yields a `Failure` dictionary whose error message
contains the word `expired`. -/
theorem claim_C8_expired :
    get_usage_result (some 401) none =
      some (.obj [("error", .str "Cookie expired (401 Unauthorized)")]) ∧
    isSubstring "expired".toList "Cookie expired (401 Unauthorized)".toList = true := by
  exact ⟨rfl, by decide⟩

/-- Claim C7: cookie parsing drops, without raising (the model is a total
function), every segment that is empty after stripping and every segment
with no `'='`; and an existing but empty cookie file makes `get_usage`
return `None` before any browser fetch is performed (the `NotAttempted`
outcome). -/
theorem claim_C7_malformed_cookies :
    (∀ (domain : String) (s : List Char),
        parse_cookies domain s = (splitSemiSpace s).filterMap (processSeg domain)) ∧
    (∀ (domain : String) (seg : List Char), pyStrip seg = [] ∨ '=' ∉ seg →
        processSeg domain seg = none) ∧
    (∀ (content : List Char) (org_id : Option String), pyStrip content = [] →
        get_usage_prepare true content org_id = .notAttempted "Cookie file is empty") := by
  refine ⟨fun _ _ => rfl, processSeg_skip, ?_⟩
  intro content oid h
  simp [get_usage_prepare, h]

/-- Witness for C7: a no-equals segment, a whitespace segment, and an
empty-after-strip cookie file. -/
theorem claim_C7_witness :
    processSeg "claude.ai" "noequalshere".toList = none ∧
    processSeg "claude.ai" "   ".toList = none ∧
    get_usage_prepare true "  ".toList none = .notAttempted "Cookie file is empty" := by
  obtain ⟨-, h2, h3⟩ := claim_C7_malformed_cookies
  exact ⟨h2 _ _ (Or.inr (by decide)), h2 _ _ (Or.inl (by decide)),
    h3 _ none (by decide)⟩

/-- Claim C10: when no organisation id is supplied, the id is extracted from
the first `lastActiveOrg` cookie segment, and when no segment matches the
request id is the hardcoded default UUID, giving the fixed request URL. -/
theorem claim_C10_default_org :
    (∀ s : List Char,
        (∀ part ∈ splitSemiSpace s,
            "lastActiveOrg=".toList.isPrefixOf (pyStrip part) = false) →
        resolveOrgId none s = defaultOrgId ∧
        buildUsageUrl (resolveOrgId none s) =
          "https://claude.ai/api/organizations/32321586-22bf-4e89-9007-8b6469448821/usage") ∧
    (∀ (part : List Char) (rest : List (List Char)),
        "lastActiveOrg=".toList.isPrefixOf (pyStrip part) = true →
        scanOrg (part :: rest) = some (pyStrip (afterEq part))) ∧
    (∀ (s v : List Char), scanOrg (splitSemiSpace s) = some v → v ≠ [] →
        resolveOrgId none s = String.mk v) := by
  refine ⟨?_, ?_, ?_⟩
  · intro s h
    have hn := scanOrg_eq_none _ h
    constructor
    · simp [resolveOrgId, hn]
    · simp [resolveOrgId, hn]
      rfl
  · intro part rest h
    simp only [scanOrg, h, if_true]
  · intro s v h hne
    simp [resolveOrgId, h, hne]

/-- Witness for C10: no matching segment yields the default UUID; a matching
segment is extracted. -/
theorem claim_C10_witness :
    resolveOrgId none "sessionKey=abc; ajs_user=xyz".toList = defaultOrgId ∧
    scanOrg ["lastActiveOrg=my-org".toList, "x=1".toList] =
      some (pyStrip (afterEq "lastActiveOrg=my-org".toList)) ∧
    resolveOrgId none "lastActiveOrg=my-org; x=1".toList = String.mk "my-org".toList := by
  obtain ⟨h1, h2, h3⟩ := claim_C10_default_org
  exact ⟨(h1 _ (by decide)).1, h2 _ _ (by decide), h3 _ _ (by decide) (by decide)⟩

/-- Claim C1: a Failure outcome (an error payload) together with an existing
persisted config takes the cached branch: the snapshot's five-hour and
weekly utilizations are copied verbatim from `five_hour_usage` (falling back
to `usage_percentage`, then 0) and `weekly_usage` (defaulting to 0), and the
config file is not modified.  The config's reset keys are assumed well typed
(absent, falsy, or strings), the shape the spec's data model prescribes. -/
theorem claim_C1_cached_fallback (d config : Dict) (u : UsageData) (now : String)
    (herr : dictHas d "error" = true) (hok : resetKeysOk config = true) :
    (fetch_usage (some d) (some config) u now).source = .cached ∧
    (fetch_usage (some d) (some config) u now).file = some config ∧
    (fetch_usage (some d) (some config) u now).usage.five_hour.usage =
      dictGetD config "five_hour_usage" (dictGetD config "usage_percentage" (.num 0)) ∧
    (fetch_usage (some d) (some config) u now).usage.weekly.usage =
      dictGetD config "weekly_usage" (.num 0) := by
  simp only [fetch_usage]
  have hcond : (!d.isEmpty && !dictHas d "error") = false := by simp [herr]
  rw [hcond]
  simp only [Bool.false_eq_true, if_false]
  exact ⟨fetchCase2_source _ _ _ hok, fetchCase2_file _ _ _,
    fetchCase2_fh_usage _ _ _, fetchCase2_wk_usage _ _ _⟩

/-- Witness for C1 at a concrete error payload and persisted config. -/
theorem claim_C1_witness :
    dictHas [("error", JVal.str "Timeout connecting to Claude")] "error" = true ∧
    resetKeysOk [("five_hour_usage", JVal.num 37), ("weekly_usage", JVal.num 12),
      ("last_manual_update", JVal.str "M")] = true ∧
    (fetch_usage (some [("error", JVal.str "Timeout connecting to Claude")])
        (some [("five_hour_usage", JVal.num 37), ("weekly_usage", JVal.num 12),
          ("last_manual_update", JVal.str "M")]) initUsageData "T0").source = .cached ∧
    (fetch_usage (some [("error", JVal.str "Timeout connecting to Claude")])
        (some [("five_hour_usage", JVal.num 37), ("weekly_usage", JVal.num 12),
          ("last_manual_update", JVal.str "M")]) initUsageData "T0").file =
      some [("five_hour_usage", JVal.num 37), ("weekly_usage", JVal.num 12),
        ("last_manual_update", JVal.str "M")] := by
  have h := claim_C1_cached_fallback [("error", JVal.str "Timeout connecting to Claude")]
    [("five_hour_usage", JVal.num 37), ("weekly_usage", JVal.num 12),
      ("last_manual_update", JVal.str "M")] initUsageData "T0" rfl rfl
  exact ⟨rfl, rfl, h.1, h.2.1⟩

/-- Claim C2: a Failure or NotAttempted outcome with no persisted config
takes the default branch: zero utilization for both windows, and the example
placeholder config is written, after which any Failure outcome takes the
cached branch instead. -/
theorem claim_C2_default_branch (api_data : Option Dict) (u : UsageData) (now : String)
    (h : api_data = none ∨ ∃ d, api_data = some d ∧ dictHas d "error" = true) :
    (fetch_usage api_data none u now).source = .default ∧
    (fetch_usage api_data none u now).usage.five_hour.usage = .num 0 ∧
    (fetch_usage api_data none u now).usage.weekly.usage = .num 0 ∧
    (fetch_usage api_data none u now).file = some exampleConfig ∧
    (∀ (d2 : Dict) (u2 : UsageData) (now2 : String), dictHas d2 "error" = true →
      (fetch_usage (some d2) (fetch_usage api_data none u now).file u2 now2).source =
        .cached) := by
  have hred : fetch_usage api_data none u now = fetchCase3 u := by
    rcases h with h | ⟨d, hd, herr⟩
    · subst h; rfl
    · subst hd
      simp only [fetch_usage]
      have hcond : (!d.isEmpty && !dictHas d "error") = false := by simp [herr]
      rw [hcond]
      simp
  rw [hred]
  refine ⟨rfl, rfl, rfl, rfl, ?_⟩
  intro d2 u2 now2 herr2
  simp only [fetch_usage]
  have hcond : (!d2.isEmpty && !dictHas d2 "error") = false := by simp [herr2]
  rw [hcond]
  simp only [Bool.false_eq_true, if_false]
  exact fetchCase2_source _ _ _ rfl

/-- Witness for C2: the NotAttempted outcome on a fresh state, followed by a
Failure outcome against the placeholder config. -/
theorem claim_C2_witness :
    (fetch_usage none none initUsageData "T0").source = .default ∧
    (fetch_usage none none initUsageData "T0").file = some exampleConfig ∧
    (fetch_usage (some [("error", JVal.str "Cookie expired (401 Unauthorized)")])
        (fetch_usage none none initUsageData "T0").file initUsageData "T1").source =
      .cached := by
  have h := claim_C2_default_branch none initUsageData "T0" (Or.inl rfl)
  exact ⟨h.1, h.2.2.2.1, h.2.2.2.2 _ initUsageData "T1" rfl⟩

/-- Counterexample to claim C3 as stated: a present but malformed (null)
`utilization` does not default the snapshot utilization to 0.  `int(None)`
raises, the outer handler catches it, and the prior value 37 is retained
(and the branch is the error handler, not a live parse). -/
theorem claim_C3_counterexample :
    pyInt JVal.null = none ∧
    (fetch_usage (some [("five_hour", JVal.obj [("utilization", JVal.null)])]) none
        ⟨⟨JVal.num 37, none⟩, ⟨JVal.num 0, none⟩⟩ "T0").usage.five_hour.usage =
      JVal.num 37 ∧
    (JVal.num 37 ≠ JVal.num 0) ∧
    (fetch_usage (some [("five_hour", JVal.obj [("utilization", JVal.null)])]) none
        ⟨⟨JVal.num 37, none⟩, ⟨JVal.num 0, none⟩⟩ "T0").source = .errored := by
  refine ⟨rfl, rfl, ?_, rfl⟩
  intro h
  simp at h

/-- Claim C3 as amended: for a Success payload, a present (truthy) window
object whose `utilization` field coerces to an integer i yields snapshot
utilization exactly i with no clamping (out-of-range values pass through);
an absent `utilization` field coerces the default 0; an absent window leaves
the window untouched; and a window whose `utilization` value fails integer
coercion raises (caught non-fatally by the caller), leaving the prior value
in place rather than defaulting to 0. -/
theorem claim_C3_no_clamping (d : Dict) (key : String) (flds : Dict) (i : Int)
    (w : UsageWindow) :
    (dictGet d key = some (.obj flds) → truthy (.obj flds) = true →
        pyInt (dictGetD flds "utilization" (.num 0)) = some i →
        (parseWindow d key w).1.usage = .num i) ∧
    (dictGet d key = none → parseWindow d key w = (w, none)) ∧
    (dictGet d key = some (.obj flds) → truthy (.obj flds) = true →
        pyInt (dictGetD flds "utilization" (.num 0)) = none →
        parseWindow d key w = (w, some "ValueError: invalid literal for int()")) := by
  refine ⟨?_, ?_, ?_⟩
  · intro h1 h2 h3
    unfold parseWindow
    rw [h1]
    simp only [h2, Bool.true_eq_false, if_false, h3]
    cases hra : dictGet flds "resets_at" with
    | none => rfl
    | some r =>
        by_cases ht : truthy r = false
        · simp [ht]
        · have ht2 : truthy r = true := by revert ht; cases truthy r <;> simp
          simp only [ht2, Bool.true_eq_false, if_false]
          cases r <;> try rfl
          rename_i s
          cases hf : fromiso (replaceZ s) <;> simp [hf]
  · intro h1
    unfold parseWindow
    rw [h1]
  · intro h1 h2 h3
    unfold parseWindow
    rw [h1]
    simp only [h2, Bool.true_eq_false, if_false, h3]

/-- Witness for the amended C3: an out-of-range utilization of 150 passes
through unchanged (no clamping), and an absent window is untouched. -/
theorem claim_C3_witness :
    (parseWindow [("five_hour", JVal.obj [("utilization", JVal.num 150)])] "five_hour"
        ⟨JVal.num 0, none⟩).1.usage = JVal.num 150 ∧
    parseWindow [("five_hour", JVal.obj [("utilization", JVal.num 150)])] "seven_day"
        ⟨JVal.num 7, none⟩ = (⟨JVal.num 7, none⟩, none) := by
  have h := claim_C3_no_clamping [("five_hour", JVal.obj [("utilization", JVal.num 150)])]
    "five_hour" [("utilization", JVal.num 150)] 150 ⟨JVal.num 0, none⟩
  have h2 := claim_C3_no_clamping [("five_hour", JVal.obj [("utilization", JVal.num 150)])]
    "seven_day" [] 0 ⟨JVal.num 7, none⟩
  exact ⟨h.1 rfl rfl rfl, h2.2.1 rfl⟩

/-- Counterexample to claim C4 as stated: the CLI fetch path
(`fetch_and_update`) performs a field-level merge on a successful
reconciliation, so a pre-existing `last_manual_update` key survives the
write. -/
theorem claim_C4_counterexample :
    fetch_and_update_core [("five_hour", JVal.obj [("utilization", JVal.num 42)])]
        (some [("last_manual_update", JVal.str "2025-01-01T00:00:00"),
          ("usage_percentage", JVal.num 10)]) "2025-06-01T00:00:00" =
      .ok (some [("last_manual_update", JVal.str "2025-01-01T00:00:00"),
        ("usage_percentage", JVal.num 42),
        ("last_auto_update", JVal.str "2025-06-01T00:00:00")]) ∧
    dictGet [("last_manual_update", JVal.str "2025-01-01T00:00:00"),
        ("usage_percentage", JVal.num 42),
        ("last_auto_update", JVal.str "2025-06-01T00:00:00")] "last_manual_update" =
      some (JVal.str "2025-01-01T00:00:00") := by
  exact ⟨rfl, rfl⟩

/-- Claim C4 as amended: the indicator's fetch path does overwrite the
persisted state wholesale on a Success outcome — the file becomes exactly
the reconciler-computed dictionary, independent of its previous contents,
and `last_manual_update` does not survive; the CLI fetch path instead merges
into the existing config, preserving every key it does not itself compute. -/
theorem claim_C4_overwrite (d : Dict) (f0 : Option Dict) (u0 u1 : UsageData)
    (now : String) :
    ((!d.isEmpty && !dictHas d "error") = true →
        parse_api_usage d u0 = (u1, none) →
        (fetch_usage (some d) f0 u0 now).file = some (buildConfig u1 now) ∧
        dictGet (buildConfig u1 now) "last_manual_update" = none) ∧
    (∀ (data existing : Dict) (c : Dict) (k : String),
        fetch_and_update_core data (some existing) now = .ok (some c) →
        k ≠ "usage_percentage" → k ≠ "last_auto_update" → k ≠ "reset_at" →
        dictGet c k = dictGet existing k) := by
  constructor
  · intro hc hp
    constructor
    · simp only [fetch_usage, hc, if_true, hp]
    · unfold buildConfig dictGet
      cases u1.five_hour.reset <;> cases u1.weekly.reset <;>
        simp [List.find?, String.ext_iff]
  · intro data existing c k h h1 h2 h3
    unfold fetch_and_update_core at h
    by_cases ht : truthy (pyOr (dictGetN data "five_hour") (dictGetN data "seven_day")) = false
    · rw [if_pos ht] at h
      simp at h
    · rw [if_neg ht] at h
      cases hv : pyOr (dictGetN data "five_hour") (dictGetN data "seven_day") with
      | obj flds =>
          simp only [hv] at h
          cases hpi : pyInt (dictGetD flds "utilization" (.num 0)) with
          | none => rw [hpi] at h; simp at h
          | some i =>
              simp only [hpi] at h
              by_cases hrt : truthy (dictGetN flds "resets_at") = true
              · rw [if_pos hrt] at h
                simp only [Except.ok.injEq, Option.some.injEq, Option.getD_some] at h
                subst h
                rw [dictGet_dictSet_ne _ _ _ _ h3, dictGet_dictSet_ne _ _ _ _ h2,
                  dictGet_dictSet_ne _ _ _ _ h1]
              · rw [if_neg hrt] at h
                simp only [Except.ok.injEq, Option.some.injEq, Option.getD_some] at h
                subst h
                rw [dictGet_dictSet_ne _ _ _ _ h2, dictGet_dictSet_ne _ _ _ _ h1]
      | null => rw [hv] at h; simp at h
      | bool b => rw [hv] at h; simp at h
      | num n => rw [hv] at h; simp at h
      | str s => rw [hv] at h; simp at h

/-- Witness for the amended C4: both conjuncts applied at concrete inputs. -/
theorem claim_C4_witness :
    (fetch_usage (some [("five_hour", JVal.obj [("utilization", JVal.num 42)])])
        (some [("last_manual_update", JVal.str "M")])
        initUsageData "T0").file =
      some (buildConfig ⟨⟨JVal.num 42, none⟩, ⟨JVal.num 0, none⟩⟩ "T0") ∧
    dictGet [("last_manual_update", JVal.str "2025-01-01T00:00:00"),
        ("usage_percentage", JVal.num 42),
        ("last_auto_update", JVal.str "T0")] "last_auto_update" =
      dictGet [("last_manual_update", JVal.str "2025-01-01T00:00:00"),
        ("usage_percentage", JVal.num 42),
        ("last_auto_update", JVal.str "T0")] "last_auto_update" := by
  have h := claim_C4_overwrite [("five_hour", JVal.obj [("utilization", JVal.num 42)])]
    (some [("last_manual_update", JVal.str "M")]) initUsageData
    ⟨⟨JVal.num 42, none⟩, ⟨JVal.num 0, none⟩⟩ "T0"
  exact ⟨(h.1 rfl rfl).1, rfl⟩

/-- Claim C6: a Success payload whose `resets_at` string fails to parse (after
the `Z` replacement) still reconciles: the parse failure is swallowed, the
window's utilization is parsed, the reset slot is left unassigned (so unset
when it was unset before), and the outcome is still the live branch. -/
theorem claim_C6_lenient_resets (d : Dict) (key : String) (flds : Dict) (s : String)
    (i : Int) (w : UsageWindow) (f0 : Option Dict) (u : UsageData) (now : String) :
    (dictGet d key = some (.obj flds) → truthy (.obj flds) = true →
        pyInt (dictGetD flds "utilization" (.num 0)) = some i →
        dictGet flds "resets_at" = some (.str s) → truthy (.str s) = true →
        fromiso (replaceZ s) = none →
        parseWindow d key w = (⟨.num i, w.reset⟩, none)) ∧
    ((!d.isEmpty && !dictHas d "error") = true → (parse_api_usage d u).2 = none →
        (fetch_usage (some d) f0 u now).source = .live) := by
  constructor
  · intro h1 h2 h3 h4 h5 h6
    unfold parseWindow
    rw [h1]
    simp only [h2, Bool.true_eq_false, if_false, h3, h4, h5, h6]
  · intro hc hp
    simp only [fetch_usage, hc, if_true]
    rcases hu : parse_api_usage d u with ⟨u1, e⟩
    rw [hu] at hp
    simp at hp
    subst hp
    rfl

/-- Witness for C6: a malformed timestamp string alongside a valid
utilization, starting from an unset reset slot. -/
theorem claim_C6_witness :
    parseWindow [("five_hour", JVal.obj [("utilization", JVal.num 42),
        ("resets_at", JVal.str "not-a-timestamp")])] "five_hour" ⟨JVal.num 0, none⟩ =
      (⟨JVal.num 42, none⟩, none) ∧
    fromiso (replaceZ "not-a-timestamp") = none ∧
    (fetch_usage (some [("five_hour", JVal.obj [("utilization", JVal.num 42),
        ("resets_at", JVal.str "not-a-timestamp")])]) none initUsageData "T0").source =
      .live := by
  have h := claim_C6_lenient_resets
    [("five_hour", JVal.obj [("utilization", JVal.num 42),
      ("resets_at", JVal.str "not-a-timestamp")])] "five_hour"
    [("utilization", JVal.num 42), ("resets_at", JVal.str "not-a-timestamp")]
    "not-a-timestamp" 42 ⟨JVal.num 0, none⟩ none initUsageData "T0"
  exact ⟨h.1 rfl rfl rfl rfl rfl rfl, rfl, h.2 rfl rfl⟩

/-- Claim C5: the config written by the Success branch, when read back
immediately through the cached (no-live-data) branch, reproduces the same
five-hour and weekly utilization values and the same reset timestamps (the
in-memory state of the second run is the state the Success branch left
behind, as in the running indicator). -/
theorem claim_C5_roundtrip (d : Dict) (f0 : Option Dict) (u0 u1 : UsageData)
    (now now2 m : String)
    (hc : (!d.isEmpty && !dictHas d "error") = true)
    (hp : parse_api_usage d u0 = (u1, none))
    (h5 : wfOptDT u1.five_hour.reset = true) (h7 : wfOptDT u1.weekly.reset = true) :
    (fetch_usage (some [("error", .str m)])
        (fetch_usage (some d) f0 u0 now).file u1 now2).source = .cached ∧
    (fetch_usage (some [("error", .str m)])
        (fetch_usage (some d) f0 u0 now).file u1 now2).usage.five_hour.usage =
      u1.five_hour.usage ∧
    (fetch_usage (some [("error", .str m)])
        (fetch_usage (some d) f0 u0 now).file u1 now2).usage.weekly.usage =
      u1.weekly.usage ∧
    (fetch_usage (some [("error", .str m)])
        (fetch_usage (some d) f0 u0 now).file u1 now2).usage.five_hour.reset =
      u1.five_hour.reset ∧
    (fetch_usage (some [("error", .str m)])
        (fetch_usage (some d) f0 u0 now).file u1 now2).usage.weekly.reset =
      u1.weekly.reset := by
  have hfile : (fetch_usage (some d) f0 u0 now).file = some (buildConfig u1 now) := by
    simp only [fetch_usage, hc, if_true, hp]
  rw [hfile]
  simp only [fetch_usage]
  have hcond : (!(List.isEmpty [(("error" : String), JVal.str m)]) &&
      !dictHas [("error", JVal.str m)] "error") = false := rfl
  rw [hcond]
  simp only [Bool.false_eq_true, if_false]
  refine ⟨fetchCase2_source _ _ _ (resetKeysOk_buildConfig u1 now), ?_, ?_, ?_, ?_⟩
  · rw [fetchCase2_fh_usage]
    simp [dictGetD, dictGet_buildConfig_fhu]
  · rw [fetchCase2_wk_usage]
    simp [dictGetD, dictGet_buildConfig_wku]
  · rw [fetchCase2_fh_reset, readReset_buildConfig_fh u1 now h5]
  · rw [fetchCase2_wk_reset _ _ _ (by rw [readReset_buildConfig_fh u1 now h5]),
      readReset_buildConfig_wk u1 now h7]

/-- Witness for C5: a live payload with a Z-suffixed reset timestamp is
persisted and read back identically (42 and 17 percent, reset at
2025-01-07T12:00:00+00:00). -/
theorem claim_C5_witness :
    (fetch_usage (some [("error", JVal.str "boom")])
        (fetch_usage (some [("five_hour", JVal.obj [("utilization", JVal.num 42),
            ("resets_at", JVal.str "2025-01-07T12:00:00Z")]),
          ("seven_day", JVal.obj [("utilization", JVal.num 17)])]) none initUsageData
          "T0").file
        ⟨⟨JVal.num 42, some ⟨2025, 1, 7, 12, 0, 0, 0, some 0⟩⟩, ⟨JVal.num 17, none⟩⟩
        "T1").source = .cached ∧
    (fetch_usage (some [("error", JVal.str "boom")])
        (fetch_usage (some [("five_hour", JVal.obj [("utilization", JVal.num 42),
            ("resets_at", JVal.str "2025-01-07T12:00:00Z")]),
          ("seven_day", JVal.obj [("utilization", JVal.num 17)])]) none initUsageData
          "T0").file
        ⟨⟨JVal.num 42, some ⟨2025, 1, 7, 12, 0, 0, 0, some 0⟩⟩, ⟨JVal.num 17, none⟩⟩
        "T1").usage.five_hour.usage = JVal.num 42 ∧
    (fetch_usage (some [("error", JVal.str "boom")])
        (fetch_usage (some [("five_hour", JVal.obj [("utilization", JVal.num 42),
            ("resets_at", JVal.str "2025-01-07T12:00:00Z")]),
          ("seven_day", JVal.obj [("utilization", JVal.num 17)])]) none initUsageData
          "T0").file
        ⟨⟨JVal.num 42, some ⟨2025, 1, 7, 12, 0, 0, 0, some 0⟩⟩, ⟨JVal.num 17, none⟩⟩
        "T1").usage.five_hour.reset = some ⟨2025, 1, 7, 12, 0, 0, 0, some 0⟩ ∧
    (fetch_usage (some [("error", JVal.str "boom")])
        (fetch_usage (some [("five_hour", JVal.obj [("utilization", JVal.num 42),
            ("resets_at", JVal.str "2025-01-07T12:00:00Z")]),
          ("seven_day", JVal.obj [("utilization", JVal.num 17)])]) none initUsageData
          "T0").file
        ⟨⟨JVal.num 42, some ⟨2025, 1, 7, 12, 0, 0, 0, some 0⟩⟩, ⟨JVal.num 17, none⟩⟩
        "T1").usage.weekly.reset = none := by
  have h := claim_C5_roundtrip
    [("five_hour", JVal.obj [("utilization", JVal.num 42),
        ("resets_at", JVal.str "2025-01-07T12:00:00Z")]),
      ("seven_day", JVal.obj [("utilization", JVal.num 17)])]
    none initUsageData
    ⟨⟨JVal.num 42, some ⟨2025, 1, 7, 12, 0, 0, 0, some 0⟩⟩, ⟨JVal.num 17, none⟩⟩
    "T0" "T1" "boom" rfl rfl rfl rfl
  exact ⟨h.1, h.2.1, h.2.2.2.1, h.2.2.2.2⟩
